import Mathlib

/-!
Verification development for the SMStoEmail presentation layer.

The repository is a React Native / Expo application whose screens issue
HTTP requests against a backend and read/write local key-value storage.
Each screen's event handlers are shallowly embedded below as pure
functions from an explicit outcome (which branch the fetch / storage
call took) and the screen's state to a record of observable effects:
the HTTP requests issued, the alert dialogs shown, the console errors
logged, and the resulting screen state.
-/

/-- HTTP methods used by the screens. -/
inductive Method
  | get
  | post
  | put
  | delete
deriving DecidableEq, Repr

/-- API paths appearing in fetch calls across the screens.  `filtersId`
carries the interpolated filter identifier from the URL template. -/
inductive ApiPath
  | smsForward
  | smsMessages
  | smsStats
  | filtersRoot
  | filtersId (id : String)
  | emailConfig
  | emailTest
deriving DecidableEq, Repr

/-- URL path string each `ApiPath` renders to, as written in the source
after the backend base URL. -/
def ApiPath.toUrlPath : ApiPath → String
  | .smsForward => "/api/sms/forward"
  | .smsMessages => "/api/sms/messages"
  | .smsStats => "/api/sms/stats"
  | .filtersRoot => "/api/filters"
  | .filtersId id => "/api/filters/" ++ id
  | .emailConfig => "/api/email/config"
  | .emailTest => "/api/email/test"

/-- One HTTP request issued by a screen. -/
structure Request where
  method : Method
  path : ApiPath
deriving DecidableEq, Repr

/-- Observable result of running one event handler: the requests it
issued, the alert dialogs it showed (by title), the console errors it
logged, and the screen state it left behind. -/
structure HandlerRun (σ : Type) where
  requests : List Request
  alerts : List String
  consoleErrors : List String
  state : σ
deriving Repr

/-! ### Logs screen (`src/frontend/app/logs.tsx`) -/

/-- SMS log entry shape (`interface SMSLog`). -/
structure SMSLog where
  id : String
  sender : String
  content : String
  timestamp : String
  forwarded : Bool
  forwarded_at : Option String
  email_status : String
  error_message : Option String
deriving DecidableEq, Repr

/-- Aggregate statistics shape (`interface SMSStats`). -/
structure SMSStats where
  total_messages : Int
  forwarded_messages : Int
  failed_messages : Int
  today_messages : Int
  today_forwarded : Int
  forwarding_rate : ℚ
deriving DecidableEq, Repr

/-- State of the logs screen relevant to its handlers. -/
structure LogsState where
  logs : List SMSLog
  stats : Option SMSStats
  loading : Bool
  refreshing : Bool
  filterStatus : String
deriving Repr

/-- Status icon chosen for a log entry (`getStatusIcon`): icon name and
color, by the same branch order as the source. -/
def getStatusIcon (log : SMSLog) : String × String :=
  if log.forwarded then ("checkmark-circle", "#4CAF50")
  else if log.email_status = "failed" then ("close-circle", "#F44336")
  else if log.email_status = "filtered" then ("filter-circle", "#FF9800")
  else if log.email_status = "no_config" then ("settings", "#FF5722")
  else ("time", "#999")

/-- Status label chosen for a log entry (`getStatusLabel`). -/
def getStatusLabel (log : SMSLog) : String :=
  if log.forwarded then "Forwarded"
  else if log.email_status = "failed" then "Failed"
  else if log.email_status = "filtered" then "Filtered"
  else if log.email_status = "no_config" then "No Config"
  else "Pending"

/-- List shown for the current filter tab (`getFilteredLogs`). -/
def getFilteredLogs (st : LogsState) : List SMSLog :=
  if st.filterStatus = "forwarded" then st.logs.filter (fun log => log.forwarded)
  else if st.filterStatus = "failed" then
    st.logs.filter (fun log => log.email_status == "failed")
  else st.logs

/-- JavaScript `Math.round`: round half toward positive infinity. -/
def jsMathRound (x : ℚ) : Int := Int.floor (x + 1 / 2)

/-- Value string of the Success Rate stats card:
`Math.round(stats.forwarding_rate)` followed by a percent sign. -/
def successRateValue (stats : SMSStats) : String :=
  toString (jsMathRound stats.forwarding_rate) ++ "%"

/-- Branches `loadData` can take: the `Promise.all` of the two fetches
(or a `json()` call) throws, or both bodies parse. -/
inductive LoadDataOutcome
  | throws
  | success (logsData : List SMSLog) (statsData : SMSStats)

/-- Embedding of `loadData`: always issues GET `/api/sms/messages` and
GET `/api/sms/stats`; on failure logs to console and shows one alert;
the `finally` block clears `loading` and `refreshing` on every path. -/
def loadDataRun (o : LoadDataOutcome) (st : LogsState) : HandlerRun LogsState :=
  match o with
  | .throws =>
      { requests := [⟨.get, .smsMessages⟩, ⟨.get, .smsStats⟩]
        alerts := ["Error"]
        consoleErrors := ["Failed to load data:"]
        state := { st with loading := false, refreshing := false } }
  | .success logsData statsData =>
      { requests := [⟨.get, .smsMessages⟩, ⟨.get, .smsStats⟩]
        alerts := []
        consoleErrors := []
        state := { st with logs := logsData, stats := some statsData,
                           loading := false, refreshing := false } }

/-- Embedding of `onRefresh`: sets the refreshing flag and re-runs
`loadData`.  This is the only re-fetch path of the screen and it is
triggered by the user's pull gesture. -/
def onRefreshRun (o : LoadDataOutcome) (st : LogsState) : HandlerRun LogsState :=
  loadDataRun o { st with refreshing := true }

/-! ### Filters screen (second component of `src/unnamed/part_001`) -/

/-- SMS filter shape (`interface SMSFilter`). -/
structure SMSFilter where
  id : String
  name : String
  filter_type : String
  filter_value : Option String
  enabled : Bool
  created_at : String
deriving DecidableEq, Repr

/-- Modal form state (`formData`). -/
structure FilterFormData where
  name : String
  filter_type : String
  filter_value : String
deriving DecidableEq, Repr

/-- Body submitted by `saveFilter` (`filterData`). -/
structure FilterPayload where
  name : String
  filter_type : String
  filter_value : Option String
  enabled : Bool
deriving DecidableEq, Repr

/-- State of the filters screen relevant to its handlers. -/
structure FiltersState where
  filters : List SMSFilter
  loading : Bool
  modalVisible : Bool
  editingFilter : Option SMSFilter
  formData : FilterFormData
deriving Repr

/-- JavaScript `String.prototype.trim`, modelled structurally over the
character list (whitespace as `Char.isWhitespace`) so that it evaluates
inside the kernel. -/
def jsTrim (s : String) : String :=
  String.mk
    (((s.data.dropWhile Char.isWhitespace).reverse.dropWhile
        Char.isWhitespace).reverse)

/-- Validation and body construction of `saveFilter`: `none` when a
validation alert fires and the handler returns before any request,
otherwise the `filterData` object that is serialized into the body. -/
def saveFilterPayload (f : FilterFormData) : Option FilterPayload :=
  if jsTrim f.name = "" then none
  else if f.filter_type ≠ "all" ∧ jsTrim f.filter_value = "" then none
  else some
    { name := f.name
      filter_type := f.filter_type
      filter_value := if f.filter_type = "all" then none else some f.filter_value
      enabled := true }

/-- Branches `loadFilters` can take. -/
inductive LoadFiltersOutcome
  | throws
  | success (data : List SMSFilter)

/-- Embedding of `loadFilters`: GET `/api/filters`; on failure it logs
and alerts; the `finally` block clears `loading` on every path. -/
def loadFiltersRun (o : LoadFiltersOutcome) (st : FiltersState) :
    HandlerRun FiltersState :=
  match o with
  | .throws =>
      { requests := [⟨.get, .filtersRoot⟩]
        alerts := ["Error"]
        consoleErrors := ["Failed to load filters:"]
        state := { st with loading := false } }
  | .success data =>
      { requests := [⟨.get, .filtersRoot⟩]
        alerts := []
        consoleErrors := []
        state := { st with filters := data, loading := false } }

/-- Branches the `saveFilter` fetch can take: the fetch (or the error
body's `json()`) throws, the response is ok, or it is not ok. -/
inductive SaveFilterOutcome
  | throws
  | ok
  | notOk (detail : Option String)

/-- Embedding of `saveFilter`.  Validation failures alert and return
before any request.  Otherwise one PUT (editing) or POST (creating)
request is issued; on ok the modal closes, `loadFilters` re-runs with
its own outcome `lo`, and a success alert shows; on any failure exactly
one error alert shows and nothing else happens. -/
def saveFilterRun (st : FiltersState) (o : SaveFilterOutcome)
    (lo : LoadFiltersOutcome) : HandlerRun FiltersState :=
  if jsTrim st.formData.name = "" then
    { requests := [], alerts := ["Validation Error"], consoleErrors := [], state := st }
  else if st.formData.filter_type ≠ "all" ∧ jsTrim st.formData.filter_value = "" then
    { requests := [], alerts := ["Validation Error"], consoleErrors := [], state := st }
  else
    let mainReq : Request :=
      match st.editingFilter with
      | some f => ⟨.put, .filtersId f.id⟩
      | none => ⟨.post, .filtersRoot⟩
    match o with
    | .ok =>
        let sub := loadFiltersRun lo { st with modalVisible := false }
        { requests := mainReq :: sub.requests
          alerts := "Success" :: sub.alerts
          consoleErrors := sub.consoleErrors
          state := sub.state }
    | .notOk _ =>
        { requests := [mainReq], alerts := ["Error"], consoleErrors := [], state := st }
    | .throws =>
        { requests := [mainReq], alerts := ["Error"], consoleErrors := [], state := st }

/-- Embedding of `toggleFilter`: one PUT `/api/filters/:id`; on ok it
re-runs `loadFilters`, otherwise it shows one error alert. -/
def toggleFilterRun (st : FiltersState) (filter : SMSFilter)
    (o : SaveFilterOutcome) (lo : LoadFiltersOutcome) : HandlerRun FiltersState :=
  match o with
  | .ok =>
      let sub := loadFiltersRun lo st
      { requests := ⟨.put, .filtersId filter.id⟩ :: sub.requests
        alerts := sub.alerts
        consoleErrors := sub.consoleErrors
        state := sub.state }
  | .notOk _ =>
      { requests := [⟨.put, .filtersId filter.id⟩], alerts := ["Error"],
        consoleErrors := [], state := st }
  | .throws =>
      { requests := [⟨.put, .filtersId filter.id⟩], alerts := ["Error"],
        consoleErrors := [], state := st }

/-- Embedding of the confirmed branch of `deleteFilter` (the `onPress`
of the destructive button after the confirmation dialog): one DELETE
`/api/filters/:id`; on ok it re-runs `loadFilters` and shows a success
alert, otherwise one error alert. -/
def deleteFilterConfirmedRun (st : FiltersState) (filter : SMSFilter)
    (o : SaveFilterOutcome) (lo : LoadFiltersOutcome) : HandlerRun FiltersState :=
  match o with
  | .ok =>
      let sub := loadFiltersRun lo st
      { requests := ⟨.delete, .filtersId filter.id⟩ :: sub.requests
        alerts := "Success" :: sub.alerts
        consoleErrors := sub.consoleErrors
        state := sub.state }
  | .notOk _ =>
      { requests := [⟨.delete, .filtersId filter.id⟩], alerts := ["Error"],
        consoleErrors := [], state := st }
  | .throws =>
      { requests := [⟨.delete, .filtersId filter.id⟩], alerts := ["Error"],
        consoleErrors := [], state := st }

/-! ### Email configuration screen (`src/unnamed/part_000`) -/

/-- Email configuration shape (`interface EmailConfig`).  Optional
TypeScript fields become `Option`. -/
structure EmailConfig where
  email_type : String
  smtp_server : Option String
  smtp_port : Option Int
  smtp_username : Option String
  smtp_password : Option String
  use_tls : Bool
  recipient_email : String
  sender_name : String
deriving DecidableEq, Repr

/-- JavaScript falsiness of an optional string field: `undefined` and
the empty string are falsy. -/
def falsyStr : Option String → Bool
  | none => true
  | some s => s == ""

/-- State of the email configuration screen. -/
structure EmailScreenState where
  activeTab : String
  config : EmailConfig
  loading : Bool
  testLoading : Bool
deriving Repr

/-- Initial `useState` value of the email configuration screen. -/
def emailScreenInit : EmailScreenState :=
  { activeTab := "smtp"
    config :=
      { email_type := "smtp"
        smtp_server := some ""
        smtp_port := some 587
        smtp_username := some ""
        smtp_password := some ""
        use_tls := true
        recipient_email := ""
        sender_name := "SMS Forwarder" }
    loading := false
    testLoading := false }

/-- Body shape of GET `/api/email/config` as `loadEmailConfig` reads
it: a `status` string and an optional `config` object. -/
structure EmailConfigResponse where
  status : String
  config : Option EmailConfig
deriving Repr

/-- Branches `loadEmailConfig` can take. -/
inductive LoadConfigOutcome
  | throws
  | success (data : EmailConfigResponse)

/-- Embedding of `loadEmailConfig`: GET `/api/email/config`; when the
body reports `configured` with a config, the state takes that config
with `smtp_password` overridden to the empty string and the active tab
set from `email_type` (falling back to smtp when falsy); a throw is
logged to the console only, with no alert. -/
def loadEmailConfigRun (o : LoadConfigOutcome) (st : EmailScreenState) :
    HandlerRun EmailScreenState :=
  match o with
  | .throws =>
      { requests := [⟨.get, .emailConfig⟩]
        alerts := []
        consoleErrors := ["Failed to load email config:"]
        state := st }
  | .success data =>
      match data.config with
      | some c =>
          if data.status = "configured" then
            { requests := [⟨.get, .emailConfig⟩]
              alerts := []
              consoleErrors := []
              state := { st with
                config := { c with smtp_password := some "" }
                activeTab := if c.email_type = "" then "smtp" else c.email_type } }
          else
            { requests := [⟨.get, .emailConfig⟩], alerts := [],
              consoleErrors := [], state := st }
      | none =>
          { requests := [⟨.get, .emailConfig⟩], alerts := [],
            consoleErrors := [], state := st }

/-- Validation and body construction of `saveEmailConfig`: `none` when
a validation alert fires before any request, otherwise the
`configToSave` object, which is the current config with `email_type`
replaced by the active tab. -/
def saveEmailConfigPayload (activeTab : String) (config : EmailConfig) :
    Option EmailConfig :=
  if config.recipient_email = "" then none
  else if activeTab = "smtp" ∧
      (falsyStr config.smtp_server ∨ falsyStr config.smtp_username ∨
       falsyStr config.smtp_password) then none
  else some { config with email_type := activeTab }

/-- Branches the `saveEmailConfig` fetch can take. -/
inductive SaveConfigOutcome
  | throws
  | response (ok : Bool) (detail : Option String)

/-- Embedding of `saveEmailConfig`: validation failures alert and
return before any request and before `setLoading(true)`; otherwise one
POST `/api/email/config` carrying the payload is issued, an ok response
alerts success, any other path alerts an error, and the `finally` block
clears `loading`. -/
def saveEmailConfigRun (o : SaveConfigOutcome) (st : EmailScreenState) :
    HandlerRun EmailScreenState :=
  match saveEmailConfigPayload st.activeTab st.config with
  | none =>
      { requests := [], alerts := ["Validation Error"], consoleErrors := [], state := st }
  | some _ =>
      match o with
      | .response true _ =>
          { requests := [⟨.post, .emailConfig⟩]
            alerts := ["Success"]
            consoleErrors := []
            state := { st with loading := false } }
      | .response false _ =>
          { requests := [⟨.post, .emailConfig⟩]
            alerts := ["Error"]
            consoleErrors := []
            state := { st with loading := false } }
      | .throws =>
          { requests := [⟨.post, .emailConfig⟩]
            alerts := ["Error"]
            consoleErrors := []
            state := { st with loading := false } }

/-- Branches the `testEmailConfig` fetch can take: a throw, or a body
with a `status` string. -/
inductive TestConfigOutcome
  | throws
  | result (status : String) (message : Option String)

/-- Embedding of `testEmailConfig`: rejected before any request when
the recipient email is empty; otherwise one POST `/api/email/test`; a
`sent` status alerts success, any other body alerts a test failure, a
throw alerts a test error; the `finally` block clears `testLoading`. -/
def testEmailConfigRun (o : TestConfigOutcome) (st : EmailScreenState) :
    HandlerRun EmailScreenState :=
  if st.config.recipient_email = "" then
    { requests := [], alerts := ["Validation Error"], consoleErrors := [], state := st }
  else
    match o with
    | .throws =>
        { requests := [⟨.post, .emailTest⟩]
          alerts := ["Test Error"]
          consoleErrors := []
          state := { st with testLoading := false } }
    | .result status _ =>
        { requests := [⟨.post, .emailTest⟩]
          alerts := [if status = "sent" then "Test Successful" else "Test Failed"]
          consoleErrors := []
          state := { st with testLoading := false } }

/-! ### JavaScript `parseInt` and the SMTP port input -/

/-- Digit test for the radix JavaScript `parseInt` selected. -/
def isDigitBase (base : Nat) (c : Char) : Bool :=
  if base = 16 then c.isDigit || ('a' ≤ c ∧ c ≤ 'f') || ('A' ≤ c ∧ c ≤ 'F')
  else c.isDigit

/-- Numeric value of one digit character. -/
def digitVal (c : Char) : Nat :=
  if c.isDigit then c.toNat - 48
  else if 'a' ≤ c ∧ c ≤ 'f' then c.toNat - 87
  else if 'A' ≤ c ∧ c ≤ 'F' then c.toNat - 55
  else 0

/-- Accumulate a digit list into a natural number for the given base. -/
def digitsToNat (base : Nat) (ds : List Char) : Nat :=
  ds.foldl (fun acc c => acc * base + digitVal c) 0

/-- Sign prefix handling of JavaScript `parseInt`. -/
def jsParseSign : List Char → Int × List Char
  | '-' :: rest => (-1, rest)
  | '+' :: rest => (1, rest)
  | cs => (1, cs)

/-- Radix detection of JavaScript `parseInt` called without a radix: a
`0x`/`0X` prefix selects base 16, otherwise base 10. -/
def jsParseBase : List Char → Nat × List Char
  | '0' :: 'x' :: rest => (16, rest)
  | '0' :: 'X' :: rest => (16, rest)
  | cs => (10, cs)

/-- JavaScript `parseInt(text)` with no radix argument: skip leading
whitespace, read an optional sign, detect a hex prefix, then parse the
maximal digit prefix; `none` stands for `NaN` (no digits at all). -/
def jsParseInt (s : String) : Option Int :=
  let cs := s.data.dropWhile (fun c => c.isWhitespace)
  let signed := jsParseSign cs
  let based := jsParseBase signed.2
  let ds := based.2.takeWhile (isDigitBase based.1)
  if ds.isEmpty then none
  else some (signed.1 * (digitsToNat based.1 ds : Int))

/-- JavaScript `v || d` where `v` is the `parseInt` result: `NaN`
(`none`), zero, and negative zero are falsy and yield the default. -/
def jsOrDefault (v : Option Int) (d : Int) : Int :=
  match v with
  | none => d
  | some n => if n = 0 then d else n

/-- Value stored by the SMTP port input's `onChangeText`:
`parseInt(text) || 587`. -/
def updateSmtpPort (text : String) : Int :=
  jsOrDefault (jsParseInt text) 587

/-- State update performed by the SMTP port input: the port field of
the config is replaced by `parseInt(text) || 587`. -/
def setSmtpPort (config : EmailConfig) (text : String) : EmailConfig :=
  { config with smtp_port := some (updateSmtpPort text) }

/-! ### Test SMS screen (third component of `src/frontend/app/_layout.tsx`) -/

/-- Form state of the test SMS screen (`testData`). -/
structure TestSMSData where
  sender : String
  content : String
deriving DecidableEq, Repr

/-- State of the test SMS screen. -/
structure TestSMSState where
  testData : TestSMSData
  loading : Bool
deriving Repr

/-- Branches the `sendTestSMS` fetch can take. -/
inductive SendTestOutcome
  | throws
  | ok (status : String) (message : String)
  | notOk (detail : Option String)

/-- Embedding of `sendTestSMS`: rejected before any request when the
trimmed sender or content is empty; otherwise one POST
`/api/sms/forward`; an ok response alerts the test result, any other
path alerts an error; the `finally` block clears `loading`. -/
def sendTestSMSRun (o : SendTestOutcome) (st : TestSMSState) :
    HandlerRun TestSMSState :=
  if jsTrim st.testData.sender = "" ∨ jsTrim st.testData.content = "" then
    { requests := [], alerts := ["Validation Error"], consoleErrors := [], state := st }
  else
    match o with
    | .ok _ _ =>
        { requests := [⟨.post, .smsForward⟩]
          alerts := ["Test Result"]
          consoleErrors := []
          state := { st with loading := false } }
    | .notOk _ =>
        { requests := [⟨.post, .smsForward⟩]
          alerts := ["Error"]
          consoleErrors := []
          state := { st with loading := false } }
    | .throws =>
        { requests := [⟨.post, .smsForward⟩]
          alerts := ["Error"]
          consoleErrors := []
          state := { st with loading := false } }

/-! ### Home (dashboard) screen (first component of `src/unnamed/part_001`) -/

/-- Stored log entry as the dashboard reads it from local storage: only
the timestamp is consulted, the forwarded flag is carried to show it is
not. -/
structure DashLog where
  timestamp : String
  forwarded : Bool
deriving DecidableEq, Repr

/-- Dashboard statistics state (`interface DashboardStats`). -/
structure DashboardStats where
  totalSMS : Nat
  forwardedToday : Nat
  activeFilters : Nat
  emailConfigured : Bool
deriving DecidableEq, Repr

/-- JavaScript truthiness of the raw string read from storage:
`null`/missing and the empty string are falsy. -/
def jsTruthyOptStr : Option String → Bool
  | none => false
  | some s => !(s == "")

/-- Pure core of `loadDashboardData`: `dateOf` stands for
`t => new Date(t).toDateString()` and `today` for
`new Date().toDateString()`.  `todayLogs` keeps the logs whose
timestamp renders to today's date string; the forwarded-today count is
its length. -/
def loadDashboardStats (dateOf : String → String) (today : String)
    (emailConfigRaw : Option String) (filters : List SMSFilter)
    (logs : List DashLog) : DashboardStats :=
  let todayLogs := logs.filter (fun log => dateOf log.timestamp == today)
  { totalSMS := logs.length
    forwardedToday := todayLogs.length
    activeFilters := filters.length
    emailConfigured := jsTruthyOptStr emailConfigRaw }

/-- State of the home screen relevant to its handlers. -/
structure HomeState where
  stats : DashboardStats
  isServiceRunning : Bool
deriving Repr

/-- Branches `loadDashboardData` can take: one of the storage reads or
a `JSON.parse` throws, or all three values are obtained (already
parsed; a missing key parses to the empty list). -/
inductive DashboardOutcome
  | throws
  | success (emailConfigRaw : Option String) (filters : List SMSFilter)
      (logs : List DashLog)

/-- Embedding of `loadDashboardData`: reads three storage keys; on
success the stats state is replaced; a throw is logged to the console
only, with no alert. -/
def loadDashboardDataRun (dateOf : String → String) (today : String)
    (o : DashboardOutcome) (st : HomeState) : HandlerRun HomeState :=
  match o with
  | .throws =>
      { requests := []
        alerts := []
        consoleErrors := ["Error loading dashboard data:"]
        state := st }
  | .success emailConfigRaw filters logs =>
      { requests := []
        alerts := []
        consoleErrors := []
        state := { st with
          stats := loadDashboardStats dateOf today emailConfigRaw filters logs } }

/-- Branches `checkServiceStatus` can take. -/
inductive ServiceStatusOutcome
  | throws
  | success (value : Option String)

/-- Embedding of `checkServiceStatus`: reads the `service_status` key;
a throw is logged to the console only, with no alert. -/
def checkServiceStatusRun (o : ServiceStatusOutcome) (st : HomeState) :
    HandlerRun HomeState :=
  match o with
  | .throws =>
      { requests := []
        alerts := []
        consoleErrors := ["Error checking service status:"]
        state := st }
  | .success value =>
      { requests := []
        alerts := []
        consoleErrors := []
        state := { st with isServiceRunning := value == some "running" } }

/-- Branches a storage write can take. -/
inductive StorageWriteOutcome
  | throws
  | ok

/-- Embedding of `toggleService`: writes the new status; on success the
flag flips and a status alert shows; a throw shows one error alert. -/
def toggleServiceRun (o : StorageWriteOutcome) (st : HomeState) :
    HandlerRun HomeState :=
  match o with
  | .ok =>
      { requests := []
        alerts := ["Service Status"]
        consoleErrors := []
        state := { st with isServiceRunning := !st.isServiceRunning } }
  | .throws =>
      { requests := []
        alerts := ["Error"]
        consoleErrors := []
        state := st }

/-! ### Settings screen (second component of `src/frontend/app/_layout.tsx`) -/

/-- Settings shape (`interface AppSettings`). -/
structure AppSettings where
  notificationsEnabled : Bool
  runInBackground : Bool
  autoStart : Bool
  encryptMessages : Bool
  soundEnabled : Bool
  vibrationEnabled : Bool
deriving DecidableEq, Repr

/-- Branches `loadSettings` can take. -/
inductive LoadSettingsOutcome
  | throws
  | success (saved : Option AppSettings)

/-- Embedding of `loadSettings`: reads the stored settings; a throw is
logged to the console only, with no alert. -/
def loadSettingsRun (o : LoadSettingsOutcome) (st : AppSettings) :
    HandlerRun AppSettings :=
  match o with
  | .throws =>
      { requests := []
        alerts := []
        consoleErrors := ["Failed to load settings:"]
        state := st }
  | .success saved =>
      { requests := []
        alerts := []
        consoleErrors := []
        state := match saved with | some s => s | none => st }

/-- Embedding of `updateSetting` for one boolean field update `apply`:
the state is updated before the write, so it changes even when the
write throws; a throw logs and shows one error alert. -/
def updateSettingRun (apply : AppSettings → AppSettings)
    (o : StorageWriteOutcome) (st : AppSettings) : HandlerRun AppSettings :=
  match o with
  | .ok =>
      { requests := []
        alerts := []
        consoleErrors := []
        state := apply st }
  | .throws =>
      { requests := []
        alerts := ["Error"]
        consoleErrors := ["Failed to save setting:"]
        state := apply st }

/-- Embedding of the confirmed branch of `clearAllData`: removes the
five storage keys; success and failure each show exactly one alert. -/
def clearAllDataConfirmedRun (o : StorageWriteOutcome) (st : AppSettings) :
    HandlerRun AppSettings :=
  match o with
  | .ok =>
      { requests := []
        alerts := ["Success"]
        consoleErrors := []
        state := st }
  | .throws =>
      { requests := []
        alerts := ["Error"]
        consoleErrors := []
        state := st }

/-! ### The API surface named by the specification -/

/-- Endpoint set as the specification lists it; this definition follows
the spec's words, to be compared with the requests the handler
embeddings issue. -/
def specApiSurface (r : Request) : Bool :=
  match r.method, r.path with
  | .post, .smsForward => true
  | .get, .smsMessages => true
  | .get, .smsStats => true
  | .get, .filtersRoot => true
  | .post, .filtersRoot => true
  | .put, .filtersId _ => true
  | .delete, .filtersId _ => true
  | .get, .emailConfig => true
  | .post, .emailConfig => true
  | .post, .emailTest => true
  | _, _ => false

/-! ### Sample states used as concrete inputs -/

/-- Initial `useState` values of the logs screen. -/
def logsInit : LogsState :=
  { logs := [], stats := none, loading := true, refreshing := false,
    filterStatus := "all" }

/-- Initial `useState` values of the filters screen. -/
def filtersInit : FiltersState :=
  { filters := [], loading := true, modalVisible := false,
    editingFilter := none,
    formData := { name := "", filter_type := "all", filter_value := "" } }

/-- Initial `useState` values of the test SMS screen. -/
def testSMSInit : TestSMSState :=
  { testData :=
      { sender := "+1234567890"
        content := "This is a test SMS message to verify that your email forwarding is working correctly." }
    loading := false }

/-- Filters screen about to create a sender filter. -/
def sampleCreateState : FiltersState :=
  { filtersInit with
    formData := { name := "Bank alerts", filter_type := "sender", filter_value := "BANK" } }

/-- Concrete stored filter. -/
def sampleFilter : SMSFilter :=
  { id := "f1", name := "All", filter_type := "all", filter_value := none,
    enabled := true, created_at := "2026-01-01" }

/-- Filters screen editing `sampleFilter`. -/
def sampleEditState : FiltersState :=
  { sampleCreateState with editingFilter := some sampleFilter }

/-- Email screen with a filled-in SMTP form. -/
def sampleEmailState : EmailScreenState :=
  { emailScreenInit with
    config := { emailScreenInit.config with
      recipient_email := "user@example.com"
      smtp_server := some "smtp.gmail.com"
      smtp_username := some "user@gmail.com"
      smtp_password := some "app-password" } }

/-- Stored configuration holding a real password, as the backend could
return it. -/
def sampleStoredConfig : EmailConfig :=
  { email_type := "smtp"
    smtp_server := some "smtp.gmail.com"
    smtp_port := some 587
    smtp_username := some "user@gmail.com"
    smtp_password := some "hunter2"
    use_tls := true
    recipient_email := "user@example.com"
    sender_name := "SMS Forwarder" }

/-! ### Theorems -/

/-- Helper: the status icon is the same five-way case split on the
status label, so the label determines the icon. -/
theorem getStatusIcon_eq_of_label (l : SMSLog) :
    getStatusIcon l =
      (if getStatusLabel l = "Forwarded" then ("checkmark-circle", "#4CAF50")
       else if getStatusLabel l = "Failed" then ("close-circle", "#F44336")
       else if getStatusLabel l = "Filtered" then ("filter-circle", "#FF9800")
       else if getStatusLabel l = "No Config" then ("settings", "#FF5722")
       else ("time", "#999")) := by
  unfold getStatusIcon getStatusLabel
  by_cases h1 : l.forwarded <;>
    by_cases h2 : l.email_status = "failed" <;>
      by_cases h3 : l.email_status = "filtered" <;>
        by_cases h4 : l.email_status = "no_config" <;>
          simp [h1, h2, h3, h4]

/-- Claim C3: the log viewer assigns exactly one status label and icon
as a total function of the forwarded flag and the delivery status:
`Forwarded` exactly when the flag is set; otherwise `Failed`,
`Filtered`, `No Config` for the matching statuses and `Pending` for
every other status, `sent` included; and entries with equal labels get
equal icons. -/
theorem c3_status_label_total (log : SMSLog) :
    (getStatusLabel log = "Forwarded" ↔ log.forwarded = true)
    ∧ (log.forwarded = false → log.email_status = "failed" →
        getStatusLabel log = "Failed")
    ∧ (log.forwarded = false → log.email_status = "filtered" →
        getStatusLabel log = "Filtered")
    ∧ (log.forwarded = false → log.email_status = "no_config" →
        getStatusLabel log = "No Config")
    ∧ (log.forwarded = false → log.email_status ≠ "failed" →
        log.email_status ≠ "filtered" → log.email_status ≠ "no_config" →
        getStatusLabel log = "Pending")
    ∧ (∀ log' : SMSLog, getStatusLabel log' = getStatusLabel log →
        getStatusIcon log' = getStatusIcon log) := by
  refine ⟨?_, ?_, ?_, ?_, ?_, ?_⟩
  · unfold getStatusLabel
    by_cases h1 : log.forwarded <;>
      by_cases h2 : log.email_status = "failed" <;>
        by_cases h3 : log.email_status = "filtered" <;>
          by_cases h4 : log.email_status = "no_config" <;>
            simp [h1, h2, h3, h4]
  · intro h1 h2; simp [getStatusLabel, h1, h2]
  · intro h1 h3
    have h2 : log.email_status ≠ "failed" := by rw [h3]; decide
    simp [getStatusLabel, h1, h2, h3]
  · intro h1 h4
    have h2 : log.email_status ≠ "failed" := by rw [h4]; decide
    have h3 : log.email_status ≠ "filtered" := by rw [h4]; decide
    simp [getStatusLabel, h1, h2, h3, h4]
  · intro h1 h2 h3 h4; simp [getStatusLabel, h1, h2, h3, h4]
  · intro log' h
    rw [getStatusIcon_eq_of_label, getStatusIcon_eq_of_label, h]

/-- Witness for C3 at a concrete entry: an unforwarded entry with
status `sent` is labelled `Pending`. -/
theorem c3_status_label_total_witness :
    getStatusLabel
      { id := "1", sender := "BANK", content := "hi", timestamp := "t",
        forwarded := false, forwarded_at := none, email_status := "sent",
        error_message := none } = "Pending" :=
  (c3_status_label_total
    { id := "1", sender := "BANK", content := "hi", timestamp := "t",
      forwarded := false, forwarded_at := none, email_status := "sent",
      error_message := none }).2.2.2.2.1 rfl (by decide) (by decide) (by decide)

/-- Claim C7: the statistics record consists of exactly the six listed
fields (two records are equal exactly when those six fields agree), and
the Success Rate card shows an integer within one half of
`forwarding_rate`, followed by a percent sign. -/
theorem c7_stats_shape_success_rate :
    (∀ s t : SMSStats, s = t ↔
      (s.total_messages = t.total_messages
        ∧ s.forwarded_messages = t.forwarded_messages
        ∧ s.failed_messages = t.failed_messages
        ∧ s.today_messages = t.today_messages
        ∧ s.today_forwarded = t.today_forwarded
        ∧ s.forwarding_rate = t.forwarding_rate))
    ∧ (∀ s : SMSStats, ∃ r : ℤ, successRateValue s = toString r ++ "%"
        ∧ |s.forwarding_rate - (r : ℚ)| ≤ 1 / 2) := by
  constructor
  · intro s t
    constructor
    · rintro rfl
      exact ⟨rfl, rfl, rfl, rfl, rfl, rfl⟩
    · rintro ⟨h1, h2, h3, h4, h5, h6⟩
      cases s; cases t
      simp_all
  · intro s
    refine ⟨jsMathRound s.forwarding_rate, rfl, ?_⟩
    have h1 : ((jsMathRound s.forwarding_rate : ℤ) : ℚ) ≤ s.forwarding_rate + 1 / 2 :=
      Int.floor_le _
    have h2 : s.forwarding_rate + 1 / 2 < (jsMathRound s.forwarding_rate : ℚ) + 1 :=
      Int.lt_floor_add_one _
    rw [abs_le]
    constructor <;> linarith

/-- Claim C10: the SMTP port input stores `parseInt(text)` when that
parse yields a nonzero number and 587 otherwise; in particular `0`, the
empty string and non-numeric text store 587. -/
theorem c10_smtp_port_update :
    (∀ s : String, ∀ n : Int, jsParseInt s = some n → n ≠ 0 →
      updateSmtpPort s = n)
    ∧ (∀ s : String, jsParseInt s = some 0 → updateSmtpPort s = 587)
    ∧ (∀ s : String, jsParseInt s = none → updateSmtpPort s = 587)
    ∧ updateSmtpPort "0" = 587
    ∧ updateSmtpPort "" = 587
    ∧ updateSmtpPort "abc" = 587
    ∧ (∀ cfg text, (setSmtpPort cfg text).smtp_port = some (updateSmtpPort text)) := by
  refine ⟨?_, ?_, ?_, ?_, ?_, ?_, ?_⟩
  · intro s n h hn
    simp [updateSmtpPort, jsOrDefault, h, hn]
  · intro s h
    simp [updateSmtpPort, jsOrDefault, h]
  · intro s h
    simp [updateSmtpPort, jsOrDefault, h]
  · rfl
  · rfl
  · rfl
  · intro cfg text
    rfl

/-- Witness for C10: the input `587` parses and is stored verbatim. -/
theorem c10_smtp_port_update_witness : updateSmtpPort "587" = 587 :=
  c10_smtp_port_update.1 "587" 587 rfl (by decide)

/-- Claim C4: a submitted filter body has a null `filter_value` exactly
when the filter type is `all`, sender and keyword filters are never
submitted with a whitespace-only value or name, and when validation
fails no request is sent. -/
theorem c4_save_filter_validation :
    (∀ f : FilterFormData, ∀ p : FilterPayload, saveFilterPayload f = some p →
      (p.filter_value = none ↔ f.filter_type = "all")
      ∧ jsTrim f.name ≠ ""
      ∧ ((f.filter_type = "sender" ∨ f.filter_type = "keyword") →
          p.filter_value = some f.filter_value ∧ jsTrim f.filter_value ≠ ""))
    ∧ (∀ st : FiltersState, ∀ o lo, saveFilterPayload st.formData = none →
        (saveFilterRun st o lo).requests = []) := by
  constructor
  · intro f p h
    unfold saveFilterPayload at h
    by_cases h1 : jsTrim f.name = ""
    · simp [h1] at h
    by_cases h2 : f.filter_type ≠ "all" ∧ jsTrim f.filter_value = ""
    · simp [h1, h2] at h
    rw [if_neg h1, if_neg h2] at h
    have hp := (Option.some.injEq _ _).mp h
    subst hp
    refine ⟨?_, h1, ?_⟩
    · by_cases ha : f.filter_type = "all" <;> simp [ha]
    · intro hty
      have hne : f.filter_type ≠ "all" := by
        rcases hty with hty | hty <;> rw [hty] <;> decide
      have hv : jsTrim f.filter_value ≠ "" := fun hv => h2 ⟨hne, hv⟩
      simp [hne, hv]
  · intro st o lo h
    unfold saveFilterRun
    by_cases g1 : jsTrim st.formData.name = ""
    · simp [g1]
    by_cases g2 : st.formData.filter_type ≠ "all" ∧ jsTrim st.formData.filter_value = ""
    · simp [g1, g2]
    exfalso
    unfold saveFilterPayload at h
    rw [if_neg g1, if_neg g2] at h
    exact Option.noConfusion h

/-- Witness for C4 at a concrete sender filter: value carried verbatim
and known nonempty after trimming. -/
theorem c4_save_filter_validation_witness :
    ((some "BANK" : Option String) = none ↔ ("sender" : String) = "all")
    ∧ jsTrim "Bank alerts" ≠ ""
    ∧ ((some "BANK" : Option String) = some "BANK"
        ∧ jsTrim "BANK" ≠ "") :=
  ⟨(c4_save_filter_validation.1
      { name := "Bank alerts", filter_type := "sender", filter_value := "BANK" }
      { name := "Bank alerts", filter_type := "sender",
        filter_value := some "BANK", enabled := true } (by decide)).1,
   (c4_save_filter_validation.1
      { name := "Bank alerts", filter_type := "sender", filter_value := "BANK" }
      { name := "Bank alerts", filter_type := "sender",
        filter_value := some "BANK", enabled := true } (by decide)).2.1,
   (c4_save_filter_validation.1
      { name := "Bank alerts", filter_type := "sender", filter_value := "BANK" }
      { name := "Bank alerts", filter_type := "sender",
        filter_value := some "BANK", enabled := true } (by decide)).2.2 (Or.inl rfl)⟩

/-- Claim C6: every body posted to the email configuration endpoint is
the current config with `email_type` replaced by the active tab, it is
only built when the recipient email is nonempty and, on the smtp tab,
when server, username and password are all non-falsy; otherwise no
request is issued. -/
theorem c6_save_email_config :
    (∀ tab : String, ∀ cfg p : EmailConfig,
      saveEmailConfigPayload tab cfg = some p →
      p.email_type = tab
      ∧ p.smtp_server = cfg.smtp_server
      ∧ p.smtp_port = cfg.smtp_port
      ∧ p.smtp_username = cfg.smtp_username
      ∧ p.smtp_password = cfg.smtp_password
      ∧ p.use_tls = cfg.use_tls
      ∧ p.recipient_email = cfg.recipient_email
      ∧ p.sender_name = cfg.sender_name
      ∧ cfg.recipient_email ≠ ""
      ∧ (tab = "smtp" →
          falsyStr cfg.smtp_server = false
          ∧ falsyStr cfg.smtp_username = false
          ∧ falsyStr cfg.smtp_password = false))
    ∧ (∀ o st, saveEmailConfigPayload st.activeTab st.config = none →
        (saveEmailConfigRun o st).requests = [])
    ∧ (∀ o st, st.config.recipient_email = "" →
        (saveEmailConfigRun o st).requests = []) := by
  refine ⟨?_, ?_, ?_⟩
  · intro tab cfg p h
    unfold saveEmailConfigPayload at h
    by_cases h1 : cfg.recipient_email = ""
    · simp [h1] at h
    by_cases h2 : tab = "smtp" ∧
        (falsyStr cfg.smtp_server ∨ falsyStr cfg.smtp_username ∨
         falsyStr cfg.smtp_password)
    · simp [h1, h2] at h
    rw [if_neg h1, if_neg h2] at h
    have hp := (Option.some.injEq _ _).mp h
    subst hp
    refine ⟨rfl, rfl, rfl, rfl, rfl, rfl, rfl, rfl, h1, ?_⟩
    intro htab
    subst htab
    constructor
    · cases hs : falsyStr cfg.smtp_server
      · rfl
      · exact absurd ⟨rfl, Or.inl hs⟩ h2
    constructor
    · cases hs : falsyStr cfg.smtp_username
      · rfl
      · exact absurd ⟨rfl, Or.inr (Or.inl hs)⟩ h2
    · cases hs : falsyStr cfg.smtp_password
      · rfl
      · exact absurd ⟨rfl, Or.inr (Or.inr hs)⟩ h2
  · intro o st h
    unfold saveEmailConfigRun
    rw [h]
  · intro o st h
    unfold saveEmailConfigRun saveEmailConfigPayload
    rw [if_pos h]

/-- Witness for C6 at the filled-in sample state: the posted body keeps
the smtp tab and all fields. -/
theorem c6_save_email_config_witness :
    ({ sampleEmailState.config with email_type := "smtp" } : EmailConfig).email_type = "smtp"
    ∧ sampleEmailState.config.recipient_email ≠ ""
    ∧ falsyStr sampleEmailState.config.smtp_password = false :=
  ⟨(c6_save_email_config.1 "smtp" sampleEmailState.config
      { sampleEmailState.config with email_type := "smtp" } (by decide)).1,
   (c6_save_email_config.1 "smtp" sampleEmailState.config
      { sampleEmailState.config with email_type := "smtp" } (by decide)).2.2.2.2.2.2.2.2.1,
   ((c6_save_email_config.1 "smtp" sampleEmailState.config
      { sampleEmailState.config with email_type := "smtp" } (by decide)).2.2.2.2.2.2.2.2.2 rfl).2.2⟩

/-- Claim C9: loading the saved configuration never places a stored
password in the form state: after `loadEmailConfig` on any response
from an empty-password state the password stays empty, and any
configured response scrubs the password to the empty string from any
prior state; the initial state's password is empty. -/
theorem c9_password_scrubbed :
    (∀ o : LoadConfigOutcome, ∀ st : EmailScreenState,
      st.config.smtp_password = some "" →
      (loadEmailConfigRun o st).state.config.smtp_password = some "")
    ∧ (∀ data : EmailConfigResponse, ∀ st : EmailScreenState,
        ∀ c : EmailConfig, data.config = some c → data.status = "configured" →
        (loadEmailConfigRun (.success data) st).state.config.smtp_password = some "")
    ∧ emailScreenInit.config.smtp_password = some "" := by
  refine ⟨?_, ?_, rfl⟩
  · intro o st h
    cases o with
    | throws => exact h
    | success data =>
        cases hc : data.config with
        | none => simp [loadEmailConfigRun, hc, h]
        | some c =>
            by_cases hs : data.status = "configured"
            · simp [loadEmailConfigRun, hc, hs]
            · simp [loadEmailConfigRun, hc, hs, h]
  · intro data st c hc hs
    simp [loadEmailConfigRun, hc, hs]

/-- Witness for C9: a backend response carrying the stored password
`hunter2` still yields an empty password field. -/
theorem c9_password_scrubbed_witness :
    (loadEmailConfigRun
      (.success { status := "configured", config := some sampleStoredConfig })
      emailScreenInit).state.config.smtp_password = some "" :=
  c9_password_scrubbed.2.1
    { status := "configured", config := some sampleStoredConfig }
    emailScreenInit sampleStoredConfig rfl rfl

/-- Helper: a filtered length depends only on the projected
timestamps. -/
theorem filter_length_timestamps (dateOf : String → String) (today : String) :
    ∀ l1 l2 : List DashLog,
      l1.map DashLog.timestamp = l2.map DashLog.timestamp →
      (l1.filter (fun x => dateOf x.timestamp == today)).length =
      (l2.filter (fun x => dateOf x.timestamp == today)).length := by
  intro l1
  induction l1 with
  | nil =>
      intro l2 h
      cases l2 with
      | nil => rfl
      | cons b u => simp at h
  | cons a t ih =>
      intro l2 h
      cases l2 with
      | nil => simp at h
      | cons b u =>
          simp only [List.map_cons, List.cons.injEq] at h
          obtain ⟨hab, htu⟩ := h
          simp only [List.filter_cons, hab]
          cases dateOf b.timestamp == today
          · exact ih u htu
          · simp [ih u htu]

/-- Claim C5: the dashboard's Total SMS equals the number of stored log
entries and Forwarded Today equals the number of entries dated today,
independent of their forwarded flags (stats are unchanged whenever the
timestamps agree). -/
theorem c5_dashboard_counts :
    (∀ dateOf : String → String, ∀ today : String,
      ∀ cfgRaw : Option String, ∀ fs : List SMSFilter, ∀ logs : List DashLog,
      (loadDashboardStats dateOf today cfgRaw fs logs).totalSMS = logs.length
      ∧ (loadDashboardStats dateOf today cfgRaw fs logs).forwardedToday =
          (logs.filter (fun l => dateOf l.timestamp == today)).length)
    ∧ (∀ dateOf : String → String, ∀ today : String,
        ∀ cfgRaw : Option String, ∀ fs : List SMSFilter,
        ∀ logs logs' : List DashLog,
        logs.map DashLog.timestamp = logs'.map DashLog.timestamp →
        (loadDashboardStats dateOf today cfgRaw fs logs).forwardedToday =
        (loadDashboardStats dateOf today cfgRaw fs logs').forwardedToday)
    ∧ (∀ dateOf today cfgRaw fs logs st,
        (loadDashboardDataRun dateOf today (.success cfgRaw fs logs) st).state.stats =
        loadDashboardStats dateOf today cfgRaw fs logs) := by
  refine ⟨?_, ?_, ?_⟩
  · intro dateOf today cfgRaw fs logs
    exact ⟨rfl, rfl⟩
  · intro dateOf today cfgRaw fs logs logs' h
    unfold loadDashboardStats
    exact filter_length_timestamps dateOf today logs logs' h
  · intro dateOf today cfgRaw fs logs st
    rfl

/-- Witness for C5: two single-entry logs differing only in the
forwarded flag give the same Forwarded Today count. -/
theorem c5_dashboard_counts_witness :
    (loadDashboardStats id "d1" none [] [{ timestamp := "d1", forwarded := true }]).forwardedToday =
    (loadDashboardStats id "d1" none [] [{ timestamp := "d1", forwarded := false }]).forwardedToday :=
  c5_dashboard_counts.2.1 id "d1" none []
    [{ timestamp := "d1", forwarded := true }]
    [{ timestamp := "d1", forwarded := false }] rfl

/-- Counterexample to claim C1: `loadEmailConfig` contacts the backend
(it issues GET `/api/email/config`) and on a thrown fetch completes
with no alert dialog at all, logging to the console only — a failure
path that completes silently. -/
theorem c1_silent_failure_counterexample :
    (loadEmailConfigRun LoadConfigOutcome.throws emailScreenInit).requests =
      [{ method := Method.get, path := ApiPath.emailConfig }]
    ∧ (loadEmailConfigRun LoadConfigOutcome.throws emailScreenInit).alerts = []
    ∧ (loadEmailConfigRun LoadConfigOutcome.throws emailScreenInit).consoleErrors =
      ["Failed to load email config:"] :=
  ⟨rfl, rfl, rfl⟩

/-- Claim C1 as amended: every failure mode of the user-initiated
operations — a thrown call, and the not-ok response where the handler
inspects one (saving a filter, toggling or deleting a filter, saving
the email configuration, sending a test SMS) or a non-sent test result
— and the thrown failures of the logs and filters list loaders surface
exactly one alert dialog (the email save, email test and test-SMS
handlers show exactly one alert on every outcome); but the passive
loaders — the email configuration loader, the dashboard loader, the
service status check and the settings loader — complete silently on
failure, logging one console error and showing no alert. -/
theorem c1_failure_alerts_amended :
    (∀ st, (loadDataRun .throws st).alerts.length = 1)
    ∧ (∀ st, (loadFiltersRun .throws st).alerts.length = 1)
    ∧ (∀ st lo, (saveFilterRun st .throws lo).alerts.length = 1)
    ∧ (∀ st d lo, (saveFilterRun st (.notOk d) lo).alerts.length = 1)
    ∧ (∀ st f lo, (toggleFilterRun st f .throws lo).alerts.length = 1)
    ∧ (∀ st f d lo, (toggleFilterRun st f (.notOk d) lo).alerts.length = 1)
    ∧ (∀ st f lo, (deleteFilterConfirmedRun st f .throws lo).alerts.length = 1)
    ∧ (∀ st f d lo, (deleteFilterConfirmedRun st f (.notOk d) lo).alerts.length = 1)
    ∧ (∀ o st, (saveEmailConfigRun o st).alerts.length = 1)
    ∧ (∀ o st, (testEmailConfigRun o st).alerts.length = 1)
    ∧ (∀ o st, (sendTestSMSRun o st).alerts.length = 1)
    ∧ (∀ st, (toggleServiceRun .throws st).alerts.length = 1)
    ∧ (∀ ap st, (updateSettingRun ap .throws st).alerts.length = 1)
    ∧ (∀ st, (clearAllDataConfirmedRun .throws st).alerts.length = 1)
    ∧ (∀ st, (loadEmailConfigRun .throws st).alerts = []
        ∧ (loadEmailConfigRun .throws st).consoleErrors.length = 1)
    ∧ (∀ dateOf today st, (loadDashboardDataRun dateOf today .throws st).alerts = []
        ∧ (loadDashboardDataRun dateOf today .throws st).consoleErrors.length = 1)
    ∧ (∀ st, (checkServiceStatusRun .throws st).alerts = []
        ∧ (checkServiceStatusRun .throws st).consoleErrors.length = 1)
    ∧ (∀ st, (loadSettingsRun .throws st).alerts = []
        ∧ (loadSettingsRun .throws st).consoleErrors.length = 1) := by
  refine ⟨fun st => rfl, fun st => rfl, ?_, ?_,
    fun st f lo => rfl, fun st f d lo => rfl,
    fun st f lo => rfl, fun st f d lo => rfl,
    ?_, ?_, ?_, fun st => rfl, fun ap st => rfl, fun st => rfl,
    fun st => ⟨rfl, rfl⟩, fun dateOf today st => ⟨rfl, rfl⟩,
    fun st => ⟨rfl, rfl⟩, fun st => ⟨rfl, rfl⟩⟩
  · intro st lo
    unfold saveFilterRun
    by_cases g1 : jsTrim st.formData.name = ""
    · simp [g1]
    by_cases g2 : st.formData.filter_type ≠ "all" ∧ jsTrim st.formData.filter_value = ""
    · simp [g1, g2]
    · simp [g1, g2]
  · intro st d lo
    unfold saveFilterRun
    by_cases g1 : jsTrim st.formData.name = ""
    · simp [g1]
    by_cases g2 : st.formData.filter_type ≠ "all" ∧ jsTrim st.formData.filter_value = ""
    · simp [g1, g2]
    · simp [g1, g2]
  · intro o st
    cases hp : saveEmailConfigPayload st.activeTab st.config with
    | none => simp [saveEmailConfigRun, hp]
    | some p =>
        cases o with
        | throws => simp [saveEmailConfigRun, hp]
        | response ok detail => cases ok <;> simp [saveEmailConfigRun, hp]
  · intro o st
    unfold testEmailConfigRun
    by_cases h : st.config.recipient_email = ""
    · simp [h]
    · cases o <;> simp [h]
  · intro o st
    unfold sendTestSMSRun
    by_cases h : jsTrim st.testData.sender = "" ∨ jsTrim st.testData.content = ""
    · simp [h]
    · cases o <;> simp [h]

/-- Helper: `loadFilters` issues exactly GET `/api/filters` on every
outcome. -/
theorem loadFiltersRun_requests (o : LoadFiltersOutcome) (st : FiltersState) :
    (loadFiltersRun o st).requests = [⟨.get, .filtersRoot⟩] := by
  cases o <;> rfl

/-- Claim C2: every request any handler issues lies in the endpoint set
the specification lists, the storage-only screens issue no requests at
all, and each of the ten listed endpoints is attained by a concrete
run. -/
theorem c2_api_surface_exact :
    (∀ o st, ∀ r ∈ (loadDataRun o st).requests, specApiSurface r = true)
    ∧ (∀ o st, ∀ r ∈ (onRefreshRun o st).requests, specApiSurface r = true)
    ∧ (∀ o st, ∀ r ∈ (loadFiltersRun o st).requests, specApiSurface r = true)
    ∧ (∀ st o lo, ∀ r ∈ (saveFilterRun st o lo).requests, specApiSurface r = true)
    ∧ (∀ st f o lo, ∀ r ∈ (toggleFilterRun st f o lo).requests,
        specApiSurface r = true)
    ∧ (∀ st f o lo, ∀ r ∈ (deleteFilterConfirmedRun st f o lo).requests,
        specApiSurface r = true)
    ∧ (∀ o st, ∀ r ∈ (loadEmailConfigRun o st).requests, specApiSurface r = true)
    ∧ (∀ o st, ∀ r ∈ (saveEmailConfigRun o st).requests, specApiSurface r = true)
    ∧ (∀ o st, ∀ r ∈ (testEmailConfigRun o st).requests, specApiSurface r = true)
    ∧ (∀ o st, ∀ r ∈ (sendTestSMSRun o st).requests, specApiSurface r = true)
    ∧ (∀ dateOf today o st, (loadDashboardDataRun dateOf today o st).requests = [])
    ∧ (∀ o st, (checkServiceStatusRun o st).requests = [])
    ∧ (∀ o st, (toggleServiceRun o st).requests = [])
    ∧ (∀ o st, (loadSettingsRun o st).requests = [])
    ∧ (∀ ap o st, (updateSettingRun ap o st).requests = [])
    ∧ (∀ o st, (clearAllDataConfirmedRun o st).requests = [])
    ∧ (⟨.post, .smsForward⟩ : Request) ∈ (sendTestSMSRun .throws testSMSInit).requests
    ∧ (⟨.get, .smsMessages⟩ : Request) ∈ (loadDataRun .throws logsInit).requests
    ∧ (⟨.get, .smsStats⟩ : Request) ∈ (loadDataRun .throws logsInit).requests
    ∧ (⟨.get, .filtersRoot⟩ : Request) ∈ (loadFiltersRun .throws filtersInit).requests
    ∧ (⟨.post, .filtersRoot⟩ : Request) ∈
        (saveFilterRun sampleCreateState .throws .throws).requests
    ∧ (⟨.put, .filtersId "f1"⟩ : Request) ∈
        (saveFilterRun sampleEditState .throws .throws).requests
    ∧ (⟨.delete, .filtersId "f1"⟩ : Request) ∈
        (deleteFilterConfirmedRun filtersInit sampleFilter .throws .throws).requests
    ∧ (⟨.get, .emailConfig⟩ : Request) ∈
        (loadEmailConfigRun .throws emailScreenInit).requests
    ∧ (⟨.post, .emailConfig⟩ : Request) ∈
        (saveEmailConfigRun .throws sampleEmailState).requests
    ∧ (⟨.post, .emailTest⟩ : Request) ∈
        (testEmailConfigRun .throws sampleEmailState).requests := by
  refine ⟨?_, ?_, ?_, ?_, ?_, ?_, ?_, ?_, ?_, ?_,
    fun dateOf today o st => by cases o <;> rfl,
    fun o st => by cases o <;> rfl,
    fun o st => by cases o <;> rfl,
    fun o st => by cases o <;> rfl,
    fun ap o st => by cases o <;> rfl,
    fun o st => by cases o <;> rfl,
    by decide, by decide, by decide, by decide, by decide, by decide,
    by decide, by decide, by decide, by decide⟩
  · intro o st r hr
    cases o <;> simp only [loadDataRun, List.mem_cons, List.mem_singleton,
      List.not_mem_nil, or_false] at hr <;>
      rcases hr with rfl | rfl <;> rfl
  · intro o st r hr
    cases o <;> simp only [onRefreshRun, loadDataRun, List.mem_cons,
      List.mem_singleton, List.not_mem_nil, or_false] at hr <;>
      rcases hr with rfl | rfl <;> rfl
  · intro o st r hr
    cases o <;> simp only [loadFiltersRun, List.mem_singleton] at hr <;>
      subst hr <;> rfl
  · intro st o lo r hr
    unfold saveFilterRun at hr
    by_cases g1 : jsTrim st.formData.name = ""
    · simp [g1] at hr
    by_cases g2 : st.formData.filter_type ≠ "all" ∧ jsTrim st.formData.filter_value = ""
    · simp [g1, g2] at hr
    rw [if_neg g1, if_neg g2] at hr
    cases he : st.editingFilter with
    | some f =>
        cases o <;>
          simp only [he, loadFiltersRun_requests, List.mem_cons,
            List.mem_singleton, List.not_mem_nil, or_false] at hr <;>
          rcases hr with rfl | rfl <;> rfl
    | none =>
        cases o <;>
          simp only [he, loadFiltersRun_requests, List.mem_cons,
            List.mem_singleton, List.not_mem_nil, or_false] at hr <;>
          rcases hr with rfl | rfl <;> rfl
  · intro st f o lo r hr
    cases o <;>
      simp only [toggleFilterRun, loadFiltersRun_requests, List.mem_cons,
        List.mem_singleton, List.not_mem_nil, or_false] at hr <;>
      rcases hr with rfl | rfl <;> rfl
  · intro st f o lo r hr
    cases o <;>
      simp only [deleteFilterConfirmedRun, loadFiltersRun_requests,
        List.mem_cons, List.mem_singleton, List.not_mem_nil, or_false] at hr <;>
      rcases hr with rfl | rfl <;> rfl
  · intro o st r hr
    cases o with
    | throws =>
        simp only [loadEmailConfigRun, List.mem_singleton] at hr
        subst hr; rfl
    | success data =>
        cases hc : data.config with
        | none =>
            simp only [loadEmailConfigRun, hc, List.mem_singleton] at hr
            subst hr; rfl
        | some c =>
            by_cases hs : data.status = "configured" <;>
              simp [loadEmailConfigRun, hc, hs] at hr <;> subst hr <;> rfl
  · intro o st r hr
    cases hp : saveEmailConfigPayload st.activeTab st.config with
    | none => simp [saveEmailConfigRun, hp] at hr
    | some p =>
        cases o with
        | throws =>
            simp [saveEmailConfigRun, hp] at hr
            subst hr; rfl
        | response ok detail =>
            cases ok <;> simp [saveEmailConfigRun, hp] at hr <;> subst hr <;> rfl
  · intro o st r hr
    unfold testEmailConfigRun at hr
    by_cases h : st.config.recipient_email = ""
    · simp [h] at hr
    · rw [if_neg h] at hr
      cases o <;> simp only [List.mem_singleton] at hr <;> subst hr <;> rfl
  · intro o st r hr
    unfold sendTestSMSRun at hr
    by_cases h : jsTrim st.testData.sender = "" ∨ jsTrim st.testData.content = ""
    · simp [h] at hr
    · rw [if_neg h] at hr
      cases o <;> simp only [List.mem_singleton] at hr <;> subst hr <;> rfl

/-- Witness for C2 at a concrete run: the single request of a failing
test-SMS send lies in the specified endpoint set. -/
theorem c2_api_surface_exact_witness :
    specApiSurface { method := Method.post, path := ApiPath.smsForward } = true :=
  c2_api_surface_exact.2.2.2.2.2.2.2.2.2.1 SendTestOutcome.throws testSMSInit
    { method := Method.post, path := ApiPath.smsForward } (by decide)

/-- Claim C8: no handler re-issues a failed request.  The logs loader
issues exactly its two fixed GETs on every outcome and always resets
the loading and refreshing flags; refresh is one more user-triggered
`loadData`; the filter mutators issue exactly their one main request on
both failure modes (thrown call and not-ok response); the email save,
email test and test-SMS handlers issue at most one request and show
exactly one alert on every outcome — thrown, not-ok response and
non-sent test result included — and, whenever they reached the network
at all, leave their loading flag cleared. -/
theorem c8_no_automatic_retry :
    (∀ o st, (loadDataRun o st).requests =
        [⟨.get, .smsMessages⟩, ⟨.get, .smsStats⟩]
      ∧ (loadDataRun o st).state.loading = false
      ∧ (loadDataRun o st).state.refreshing = false)
    ∧ (∀ o st, onRefreshRun o st = loadDataRun o { st with refreshing := true })
    ∧ (∀ o st, (loadFiltersRun o st).requests = [⟨.get, .filtersRoot⟩]
        ∧ (loadFiltersRun o st).state.loading = false)
    ∧ (∀ st lo, (saveFilterRun st .throws lo).requests.length ≤ 1
        ∧ (saveFilterRun st .throws lo).alerts.length = 1)
    ∧ (∀ st d lo, (saveFilterRun st (.notOk d) lo).requests.length ≤ 1
        ∧ (saveFilterRun st (.notOk d) lo).alerts.length = 1)
    ∧ (∀ st f lo, (toggleFilterRun st f .throws lo).requests =
        [⟨.put, .filtersId f.id⟩])
    ∧ (∀ st f d lo, (toggleFilterRun st f (.notOk d) lo).requests =
        [⟨.put, .filtersId f.id⟩])
    ∧ (∀ st f lo, (deleteFilterConfirmedRun st f .throws lo).requests =
        [⟨.delete, .filtersId f.id⟩])
    ∧ (∀ st f d lo, (deleteFilterConfirmedRun st f (.notOk d) lo).requests =
        [⟨.delete, .filtersId f.id⟩])
    ∧ (∀ o st, (loadEmailConfigRun o st).requests = [⟨.get, .emailConfig⟩])
    ∧ (∀ o st, (saveEmailConfigRun o st).requests.length ≤ 1
        ∧ (saveEmailConfigRun o st).alerts.length = 1
        ∧ ((saveEmailConfigRun o st).requests = []
            ∨ (saveEmailConfigRun o st).state.loading = false))
    ∧ (∀ o st, (testEmailConfigRun o st).requests.length ≤ 1
        ∧ (testEmailConfigRun o st).alerts.length = 1
        ∧ ((testEmailConfigRun o st).requests = []
            ∨ (testEmailConfigRun o st).state.testLoading = false))
    ∧ (∀ o st, (sendTestSMSRun o st).requests.length ≤ 1
        ∧ (sendTestSMSRun o st).alerts.length = 1
        ∧ ((sendTestSMSRun o st).requests = []
            ∨ (sendTestSMSRun o st).state.loading = false)) := by
  refine ⟨?_, fun o st => rfl, ?_, ?_, ?_,
    fun st f lo => rfl, fun st f d lo => rfl,
    fun st f lo => rfl, fun st f d lo => rfl,
    ?_, ?_, ?_, ?_⟩
  · intro o st
    cases o <;> exact ⟨rfl, rfl, rfl⟩
  · intro o st
    cases o <;> exact ⟨rfl, rfl⟩
  · intro st lo
    unfold saveFilterRun
    by_cases g1 : jsTrim st.formData.name = ""
    · simp [g1]
    by_cases g2 : st.formData.filter_type ≠ "all" ∧ jsTrim st.formData.filter_value = ""
    · simp [g1, g2]
    · simp [g1, g2]
  · intro st d lo
    unfold saveFilterRun
    by_cases g1 : jsTrim st.formData.name = ""
    · simp [g1]
    by_cases g2 : st.formData.filter_type ≠ "all" ∧ jsTrim st.formData.filter_value = ""
    · simp [g1, g2]
    · simp [g1, g2]
  · intro o st
    cases o with
    | throws => rfl
    | success data =>
        cases hc : data.config with
        | none => simp [loadEmailConfigRun, hc]
        | some c =>
            by_cases hs : data.status = "configured" <;>
              simp [loadEmailConfigRun, hc, hs]
  · intro o st
    cases hp : saveEmailConfigPayload st.activeTab st.config with
    | none => simp [saveEmailConfigRun, hp]
    | some p =>
        cases o with
        | throws => simp [saveEmailConfigRun, hp]
        | response ok detail => cases ok <;> simp [saveEmailConfigRun, hp]
  · intro o st
    unfold testEmailConfigRun
    by_cases h : st.config.recipient_email = ""
    · simp [h]
    · cases o <;> simp [h]
  · intro o st
    unfold sendTestSMSRun
    by_cases h : jsTrim st.testData.sender = "" ∨ jsTrim st.testData.content = ""
    · simp [h]
    · cases o <;> simp [h]
